import Mathlib

/-! Shallow embedding of the Easy LXC backend (src/backend/main.py): the task
registry with expiry, the tracked-execution runner, the per-container CPU
delta cache, the image catalog cache and the container snapshot builder,
together with theorems checking the specification claims.

Timestamps (Python floats from time.time) are modelled as rationals, the
cumulative CPU counter (a JSON integer) as an integer.  Python dicts are
modelled as association lists that preserve insertion order; dict access is
by the first matching key, mirroring the unique-key discipline of dicts. -/

namespace EasyLxc

/-- Lookup of a key in an association list (Python dict read). -/
def dictGet {β : Type} : List (String × β) → String → Option β
  | [], _ => none
  | p :: rest, k => if p.1 = k then some p.2 else dictGet rest k

/-- Whether the key is present (Python `k in d`). -/
def dictHas {β : Type} (l : List (String × β)) (k : String) : Bool :=
  (dictGet l k).isSome

/-- Assignment `d[k] = v` on a dict: replace the value in place when the key
exists, append at the end otherwise (insertion order of Python dicts). -/
def dictSet {β : Type} (l : List (String × β)) (k : String) (v : β) :
    List (String × β) :=
  if dictHas l k then l.map (fun p => if p.1 = k then (k, v) else p)
  else l ++ [(k, v)]

/-- Last element of a list, with a default for the empty list. -/
def lastD {α : Type} : List α → α → α
  | [], d => d
  | x :: xs, _ => lastD xs x

theorem lastD_append {α : Type} (l1 l2 : List α) (d : α) :
    lastD (l1 ++ l2) d = lastD l2 (lastD l1 d) := by
  induction l1 generalizing d with
  | nil => rfl
  | cons x xs ih => simpa [lastD] using ih x

/-- Rounding of a rational to the nearest integer, ties to even, the rule
Python `round` uses. -/
def roundHE (q : ℚ) : ℤ :=
  let f : ℤ := ⌊q⌋
  let r : ℚ := q - f
  if r < 1 / 2 then f
  else if 1 / 2 < r then f + 1
  else if f % 2 = 0 then f else f + 1

/-- Python `round(x, 2)`: round to two decimal places. -/
def pyRound2 (q : ℚ) : ℚ :=
  (roundHE (q * 100) : ℚ) / 100

theorem roundHE_intCast (n : ℤ) : roundHE (n : ℚ) = n := by
  norm_num [roundHE]

theorem pyRound2_intCast (n : ℤ) : pyRound2 (n : ℚ) = n := by
  have h : ((n : ℚ)) * 100 = ((n * 100 : ℤ) : ℚ) := by push_cast; ring
  rw [pyRound2, h, roundHE_intCast]
  push_cast
  field_simp

theorem pyRound2_hundred : pyRound2 100 = 100 := by
  have h := pyRound2_intCast 100
  norm_num at h
  exact h

/-- Python `str.lower()` on the characters of a string. -/
def pyLower (s : String) : String :=
  s.toLower

/-- Python `s.replace(" ", "")`: drop every space character. -/
def removeSpaces (s : String) : String :=
  String.mk (s.data.filter (fun c => c ≠ ' '))

/-- Python `s or d` for strings: the fallback when `s` is empty (falsy). -/
def strDefault (s d : String) : String :=
  if s = "" then d else s

/-! Container snapshot builder data model (GET /containers, lines 188-313).
The raw JSON returned by `lxc list` is modelled structurally: only the fields
the endpoint reads are kept, with the dict-`get` defaults already applied to
leaf numeric fields (`state["memory"]["usage"]`, `state["cpu"]["usage"]`,
per-entry `usage` of `state["disk"]`, each defaulting to 0). -/

/-- One address record of an interface: `family` and `address` fields, which
the hypervisor always emits together. -/
structure Address where
  family : String
  address : String
deriving DecidableEq

/-- One network interface: its list of address records. -/
structure NetIface where
  addresses : List Address
deriving DecidableEq

/-- The `state` object of a running container. -/
structure ContainerState where
  network : List (String × NetIface)
  memoryUsage : ℤ
  diskUsages : List ℤ
  cpuUsageNs : ℤ
deriving DecidableEq

/-- One raw container from the `lxc list` output: `state` is `none` when the
JSON field is null/absent (falsy in the source `if status == "Running" and
state` test); `config` and `devices` are dicts of strings. -/
structure RawContainer where
  name : String
  status : String
  state : Option ContainerState
  config : List (String × String)
  devices : List (String × List (String × String))
deriving DecidableEq

/-- A cached CPU observation: wall-clock time and cumulative counter. -/
structure CpuSample where
  time : ℚ
  usage : ℤ
deriving DecidableEq

/-- One entry of the `redirections` output list. -/
structure Redirection where
  container : String
  device_name : String
  listen : String
  connect : String
deriving DecidableEq

/-- One entry of the `containers` output list.  The source formats the CPU
percentage into a string with a percent sign; the numeric value is kept. -/
structure Snapshot where
  name : String
  status : String
  ipv4 : String
  memory : ℤ
  disk : ℤ
  cpu : ℚ
  os : String
  release : String
  architecture : String
deriving DecidableEq

/-- Inner loop of the IPv4 scan (lines 231-233): each inet-family address
overwrites the accumulator. -/
def ipv4AddrStep (a : String) (addr : Address) : String :=
  if addr.family = "inet" then addr.address else a

/-- Outer loop of the IPv4 scan (lines 229-233): every non-loopback interface
is scanned in order. -/
def ipv4IfaceStep (acc : String) (p : String × NetIface) : String :=
  if p.1 ≠ "lo" then p.2.addresses.foldl ipv4AddrStep acc else acc

/-- The IPv4 value reported for a running container (lines 228-233), starting
from the placeholder. -/
def computeIpv4 (network : List (String × NetIface)) : String :=
  network.foldl ipv4IfaceStep "-"

/-- The inet-family addresses of one interface, in order. -/
def inetAddrsOf : List Address → List String
  | [] => []
  | a :: as => if a.family = "inet" then a.address :: inetAddrsOf as else inetAddrsOf as

/-- Following the words of the specification: the inet-family addresses of the
non-loopback interfaces, in the order the network state reports them. -/
def inetAddresses : List (String × NetIface) → List String
  | [] => []
  | p :: rest =>
      (if p.1 = "lo" then [] else inetAddrsOf p.2.addresses) ++ inetAddresses rest

theorem ipv4AddrStep_fold (addrs : List Address) (init : String) :
    addrs.foldl ipv4AddrStep init = lastD (inetAddrsOf addrs) init := by
  induction addrs generalizing init with
  | nil => rfl
  | cons a as ih =>
      by_cases h : a.family = "inet" <;>
        simp [List.foldl_cons, ipv4AddrStep, inetAddrsOf, h, ih, lastD]

theorem computeIpv4_fold (network : List (String × NetIface)) (init : String) :
    network.foldl ipv4IfaceStep init = lastD (inetAddresses network) init := by
  induction network generalizing init with
  | nil => rfl
  | cons p rest ih =>
      by_cases h : p.1 = "lo" <;>
        simp [List.foldl_cons, ipv4IfaceStep, inetAddresses, h, ih,
          ipv4AddrStep_fold, lastD_append]

theorem computeIpv4_eq_last (network : List (String × NetIface)) :
    computeIpv4 network = lastD (inetAddresses network) "-" :=
  computeIpv4_fold network "-"

/-- Proxy devices of one container (lines 283-292): every device of type
`proxy` contributes one redirection entry, in order. -/
def proxyRedirections (name : String) :
    List (String × List (String × String)) → List Redirection
  | [] => []
  | d :: rest =>
      (if dictGet d.2 "type" = some "proxy" then
        [⟨name, d.1, (dictGet d.2 "listen").getD "", (dictGet d.2 "connect").getD ""⟩]
      else []) ++ proxyRedirections name rest

theorem proxyRedirections_container (name : String)
    (devices : List (String × List (String × String))) :
    ∀ r ∈ proxyRedirections name devices, r.container = name := by
  induction devices with
  | nil => intro r hr; cases hr
  | cons d rest ih =>
      intro r hr
      by_cases h : dictGet d.2 "type" = some "proxy"
      · simp only [proxyRedirections, h, if_pos] at hr
        rcases List.mem_append.1 hr with h1 | h2
        · simp only [List.mem_singleton] at h1; subst h1; rfl
        · exact ih r h2
      · simp only [proxyRedirections, h, if_neg, not_false_iff,
          List.nil_append] at hr
        exact ih r hr

/-- The OS / release / architecture fields read from the image config
(lines 221-224): a placeholder when the config dict is falsy, otherwise the
dict value with an `Unknown` default. -/
def configField (config : List (String × String)) (key : String) : String :=
  if config ≠ [] then (dictGet config key).getD "Unknown" else "-"

/-- One iteration of the container loop (lines 206-309).  The two in-guest
fallback shell commands for memory and disk (lines 239-248 and 256-265) are
external collaborators and are passed in as oracles: `none` models a failed,
empty or throwing fallback, where the source keeps the zero default.  Returns
the snapshot row, the redirections contributed by this container, and the
updated CPU cache. -/
def processContainer (now : ℚ) (memFb diskFb : String → Option ℤ)
    (cache : String → Option CpuSample) (c : RawContainer) :
    Snapshot × List Redirection × (String → Option CpuSample) :=
  let osName := configField c.config "image.os"
  let release := configField c.config "image.release"
  let arch := configField c.config "image.architecture"
  match c.state with
  | some st =>
      if c.status = "Running" then
        let ipv4 := computeIpv4 st.network
        let memory :=
          if st.memoryUsage = 0 then (memFb c.name).getD 0 else st.memoryUsage
        let disk0 := st.diskUsages.foldl (fun a d => a + d) 0
        let disk := if disk0 = 0 then (diskFb c.name).getD 0 else disk0
        let cpu :=
          match cache c.name with
          | some prev =>
              let timeDelta := now - prev.time
              if 0 < timeDelta then
                pyRound2 (((st.cpuUsageNs - prev.usage : ℤ) : ℚ) / 1000000000 /
                  timeDelta * 100)
              else 0
          | none => 0
        let reds := proxyRedirections c.name c.devices
        let cache2 : String → Option CpuSample :=
          fun n => if n = c.name then some ⟨now, st.cpuUsageNs⟩ else cache n
        (⟨c.name, c.status, ipv4, memory, disk, cpu, osName, release, arch⟩,
          reds, cache2)
      else
        (⟨c.name, c.status, "-", 0, 0, 0, osName, release, arch⟩, [], cache)
  | none =>
      (⟨c.name, c.status, "-", 0, 0, 0, osName, release, arch⟩, [], cache)

/-- Accumulating step of the container loop: snapshot rows and redirections
are appended, the CPU cache is threaded through. -/
def snapshotStep (now : ℚ) (memFb diskFb : String → Option ℤ)
    (acc : List Snapshot × List Redirection × (String → Option CpuSample))
    (c : RawContainer) :
    List Snapshot × List Redirection × (String → Option CpuSample) :=
  let r := processContainer now memFb diskFb acc.2.2 c
  (acc.1 ++ [r.1], acc.2.1 ++ r.2.1, r.2.2)

/-- The GET /containers endpoint body (lines 188-313) on an already parsed
listing: builds the `containers` and `redirections` lists and the updated
per-container CPU cache. -/
def list_containers (now : ℚ) (memFb diskFb : String → Option ℤ)
    (cache : String → Option CpuSample) (raw : List RawContainer) :
    List Snapshot × List Redirection × (String → Option CpuSample) :=
  raw.foldl (snapshotStep now memFb diskFb) ([], [], cache)

/-- Following the words of the specification (section 4.4): the derived CPU
rate from an optional previous observation and the current one. -/
def cpuRateSpec (prev : Option CpuSample) (t1 : ℚ) (c1 : ℤ) : ℚ :=
  match prev with
  | none => 0
  | some s =>
      if 0 < t1 - s.time then
        pyRound2 (((c1 - s.usage : ℤ) : ℚ) / 1000000000 / (t1 - s.time) * 100)
      else 0

/-- The redirections contributed by a listing, container by container: only a
Running container with a truthy state contributes its proxy devices. -/
def runningReds : List RawContainer → List Redirection
  | [] => []
  | c :: rest =>
      (if c.status = "Running" ∧ c.state.isSome = true then
        proxyRedirections c.name c.devices
      else []) ++ runningReds rest

theorem processContainer_reds (now : ℚ) (mf df : String → Option ℤ)
    (cache : String → Option CpuSample) (c : RawContainer) :
    (processContainer now mf df cache c).2.1
      = if c.status = "Running" ∧ c.state.isSome = true then
          proxyRedirections c.name c.devices
        else [] := by
  cases hs : c.state with
  | none => by_cases h : c.status = "Running" <;> simp [processContainer, hs, h]
  | some st => by_cases h : c.status = "Running" <;> simp [processContainer, hs, h]

theorem snapshot_fold_reds (now : ℚ) (mf df : String → Option ℤ)
    (raw : List RawContainer)
    (acc : List Snapshot × List Redirection × (String → Option CpuSample)) :
    (raw.foldl (snapshotStep now mf df) acc).2.1 = acc.2.1 ++ runningReds raw := by
  induction raw generalizing acc with
  | nil => simp [runningReds]
  | cons c rest ih =>
      simp [List.foldl_cons, snapshotStep, ih, processContainer_reds,
        runningReds, List.append_assoc]

/-- The redirection comes from a Running container of the listing. -/
def redFromRunning (raw : List RawContainer) (r : Redirection) : Prop :=
  ∃ c, c ∈ raw ∧ c.status = "Running" ∧ r.container = c.name ∧
    r ∈ proxyRedirections c.name c.devices

/-- C1: for every container with a cached previous CPU observation and a
current observation taken while Running, the derived percentage follows the
delta formula (rounded to two decimal places) when the clock advanced, is 0
when it did not advance or no previous observation exists, and the cache
entry is overwritten with the current observation in every branch. -/
theorem cpu_rate_derivation (now : ℚ) (memFb diskFb : String → Option ℤ)
    (cache : String → Option CpuSample) (c : RawContainer) (st : ContainerState)
    (hs : c.state = some st) (hr : c.status = "Running") :
    (processContainer now memFb diskFb cache c).1.cpu
        = cpuRateSpec (cache c.name) now st.cpuUsageNs ∧
    (processContainer now memFb diskFb cache c).2.2 c.name
        = some ⟨now, st.cpuUsageNs⟩ := by
  constructor
  · simp only [processContainer, hs, hr, if_pos]
    cases hc : cache c.name with
    | none => simp [cpuRateSpec, hc]
    | some prev => simp [cpuRateSpec, hc]
  · simp [processContainer, hs, hr]

/-- A fallback oracle that always fails (the in-guest command yields
nothing). -/
def fbNone : String → Option ℤ := fun _ => none

/-- The empty CPU cache. -/
def cacheEmpty : String → Option CpuSample := fun _ => none

/-- The state of the specification test vector: cumulative counter at
6e9 ns. -/
def exStateA : ContainerState := ⟨[], 0, [], 6000000000⟩

/-- A Running container named a with the test-vector state. -/
def exRunningA : RawContainer := ⟨"a", "Running", some exStateA, [], []⟩

/-- A cache holding the first test-vector observation for container a. -/
def cacheA : String → Option CpuSample :=
  fun n => if n = "a" then some ⟨100, 5000000000⟩ else none

theorem cpu_rate_derivation_witness :
    (processContainer 101 fbNone fbNone cacheA exRunningA).1.cpu = 100 ∧
    (processContainer 101 fbNone fbNone cacheA exRunningA).2.2 "a"
      = some ⟨101, 6000000000⟩ := by
  have h := cpu_rate_derivation 101 fbNone fbNone cacheA exRunningA exStateA rfl rfl
  refine ⟨?_, ?_⟩
  · rw [h.1]
    have e1 : cacheA exRunningA.name = some ⟨100, 5000000000⟩ := rfl
    have e2 : exStateA.cpuUsageNs = (6000000000 : ℤ) := rfl
    rw [e1, e2]
    simp only [cpuRateSpec]
    norm_num [pyRound2_hundred]
  · exact h.2

/-- A network state with two non-loopback interfaces, one inet address
each. -/
def exNet : List (String × NetIface) :=
  [("eth0", ⟨[⟨"inet", "10.0.0.1"⟩]⟩), ("eth1", ⟨[⟨"inet", "10.0.0.2"⟩]⟩)]

/-- A Running container named b holding the two-interface network state. -/
def exContainerB : RawContainer :=
  ⟨"b", "Running", some ⟨exNet, 0, [], 0⟩, [], []⟩

/-- C5 counterexample: with two non-loopback interfaces holding one inet
address each, the snapshot reports the second (last) address, not the first
as the claim states — the source loop overwrites without breaking. -/
theorem ipv4_first_address_counterexample :
    inetAddresses exNet = ["10.0.0.1", "10.0.0.2"] ∧
    (processContainer 0 fbNone fbNone cacheEmpty exContainerB).1.ipv4
      = "10.0.0.2" ∧
    ("10.0.0.2" : String) ≠ "10.0.0.1" := by decide

/-- C5 amended: for every Running container with a reported network state,
the snapshot ipv4 field equals the LAST non-loopback inet-family address in
report order, and the placeholder when no such address exists. -/
theorem ipv4_last_address (now : ℚ) (mf df : String → Option ℤ)
    (cache : String → Option CpuSample) (c : RawContainer) (st : ContainerState)
    (hs : c.state = some st) (hr : c.status = "Running") :
    (processContainer now mf df cache c).1.ipv4
      = lastD (inetAddresses st.network) "-" := by
  simp [processContainer, hs, hr, computeIpv4_eq_last]

theorem ipv4_last_address_witness :
    (processContainer 0 fbNone fbNone cacheEmpty exContainerB).1.ipv4
      = "10.0.0.2" := by
  rw [ipv4_last_address 0 fbNone fbNone cacheEmpty exContainerB
    ⟨exNet, 0, [], 0⟩ rfl rfl]
  decide

/-- C9: every redirection reported by the container listing comes from a
container whose status is Running — containers in any other status contribute
none of their configured proxy devices. -/
theorem redirections_only_running (now : ℚ) (mf df : String → Option ℤ)
    (cache : String → Option CpuSample) (raw : List RawContainer)
    (r : Redirection)
    (hr : r ∈ (list_containers now mf df cache raw).2.1) :
    redFromRunning raw r := by
  rw [list_containers, snapshot_fold_reds] at hr
  simp only [List.nil_append] at hr
  induction raw with
  | nil => cases hr
  | cons c rest ih =>
      rcases List.mem_append.1 hr with h1 | h2
      · by_cases hc : c.status = "Running" ∧ c.state.isSome = true
        · rw [if_pos hc] at h1
          exact ⟨c, List.mem_cons_self c rest, hc.1,
            proxyRedirections_container c.name c.devices r h1, h1⟩
        · rw [if_neg hc] at h1
          cases h1
      · obtain ⟨c', hm, hst, hcn, hpr⟩ := ih h2
        exact ⟨c', List.mem_cons_of_mem c hm, hst, hcn, hpr⟩

/-- A proxy device configuration dict. -/
def exProxyDev : List (String × String) :=
  [("type", "proxy"), ("listen", "tcp:0.0.0.0:8080"),
   ("connect", "tcp:127.0.0.1:80")]

/-- A Running container named web with one proxy device. -/
def exRunningWeb : RawContainer :=
  ⟨"web", "Running", some ⟨[], 0, [], 0⟩, [], [("proxy-80", exProxyDev)]⟩

/-- The redirection entry the proxy device of exRunningWeb produces. -/
def exRed : Redirection :=
  ⟨"web", "proxy-80", "tcp:0.0.0.0:8080", "tcp:127.0.0.1:80"⟩

theorem redirections_only_running_witness :
    redFromRunning [exRunningWeb] exRed :=
  redirections_only_running 0 fbNone fbNone cacheEmpty [exRunningWeb] exRed
    (by decide)

/-! Task registry (TASK_STORE, TaskResult, lines 52-67, 112-120, 321-338). -/

/-- The TaskResult dataclass (lines 57-67). -/
structure TaskResult where
  task_id : String
  status : String
  action : String
  target : String
  message : Option String
  error : Option String
  created_at : ℚ
  completed_at : Option ℚ
deriving DecidableEq

/-- The task store, a dict keyed by the opaque task id. -/
abbrev TaskStore := List (String × TaskResult)

/-- TASK_EXPIRY (line 54): tasks expire after 5 minutes. -/
def TASK_EXPIRY : ℚ := 300

/-- A freshly created task record, as the request handlers build it
(lines 348-353, 389-394, 413-418). -/
def newTask (task_id action target : String) (now : ℚ) : TaskResult :=
  ⟨task_id, "pending", action, target, none, none, now, none⟩

/-- Whether the sweep keeps a record: lines 115-118 mark as expired every
record with now minus created_at strictly above TASK_EXPIRY. -/
def keepTask (now : ℚ) (p : String × TaskResult) : Bool :=
  if now - p.2.created_at > TASK_EXPIRY then false else true

/-- cleanup_old_tasks (lines 112-120): delete every expired record. -/
def cleanup_old_tasks (now : ℚ) (store : TaskStore) : TaskStore :=
  store.filter (keepTask now)

/-- The body returned by GET /tasks (lines 330-338). -/
structure TaskView where
  task_id : String
  status : String
  action : String
  target : String
  message : Option String
  error : Option String
  completed : Bool
deriving DecidableEq

/-- get_task_status (lines 321-338): sweep first, then read; the `none`
result models the 404 not-found response. -/
def get_task_status (now : ℚ) (store : TaskStore) (task_id : String) :
    TaskStore × Option TaskView :=
  let store1 := cleanup_old_tasks now store
  match dictGet store1 task_id with
  | none => (store1, none)
  | some t =>
      (store1, some ⟨t.task_id, t.status, t.action, t.target, t.message,
        t.error, t.status == "success" || t.status == "error"⟩)

/-! Process invoker (run_script, lines 123-154) and tracked-execution runner
(run_tracked_task, lines 157-180). -/

/-- Outcome of the attempt to run the external process — the ambient
behavior of subprocess.run: either the process started and ran to completion
with an exit code and captured output, or an OS-level error kept it from
starting (for example the script file missing), which subprocess.run
surfaces as an OSError. -/
inductive RunOutcome where
  | completed (exitCode : ℤ) (stdout stderr : String)
  | osError (message : String)
deriving DecidableEq

/-- The structured result run_script returns (lines 143-147, 150-154). -/
structure ScriptResult where
  success : Bool
  stdout : String
  stderr : String
deriving DecidableEq

/-- run_script (lines 123-154).  With check=True, subprocess.run raises
CalledProcessError exactly when the process exits non-zero, and the except
clause catches only that class; an OSError from a process that could not be
started is not caught and escapes, modelled by the `Except.error` branch. -/
def run_script : RunOutcome → Except String ScriptResult
  | .completed code out err =>
      if code = 0 then .ok ⟨true, out, err⟩ else .ok ⟨false, out, err⟩
  | .osError m => .error m

/-- The transition to running (line 168). -/
def markRunning (t : TaskResult) : TaskResult :=
  { t with status := "running" }

/-- The terminal update of run_tracked_task (lines 172-180): stamp
completed_at, then pick the terminal status from the invoker result. -/
def finishTask (result : ScriptResult) (finishTime : ℚ) (action target : String)
    (t : TaskResult) : TaskResult :=
  if result.success then
    { t with
      completed_at := some finishTime
      status := "success"
      message := some (action ++ " completed successfully for " ++ target) }
  else
    { t with
      completed_at := some finishTime
      status := "error"
      error := some (strDefault result.stderr.trim "Unknown error occurred") }

/-- Mutation of the record stored under a key. -/
def updateTask (store : TaskStore) (task_id : String)
    (f : TaskResult → TaskResult) : TaskStore :=
  store.map (fun p => if p.1 = task_id then (p.1, f p.2) else p)

/-- run_tracked_task (lines 157-180): mark the record running, run the
script, then finish.  There is no try here, so an exception escaping
run_script escapes this function too. -/
def run_tracked_task (store : TaskStore) (task_id : String)
    (outcome : RunOutcome) (finishTime : ℚ) (action target : String) :
    Except String TaskStore :=
  let s1 := updateTask store task_id markRunning
  match run_script outcome with
  | .error e => .error e
  | .ok result =>
      .ok (updateTask s1 task_id (finishTask result finishTime action target))

theorem dictGet_updateTask (store : TaskStore) (task_id : String)
    (f : TaskResult → TaskResult) :
    dictGet (updateTask store task_id f) task_id
      = (dictGet store task_id).map f := by
  induction store with
  | nil => rfl
  | cons p rest ih =>
      simp only [updateTask, List.map_cons] at ih ⊢
      by_cases h : p.1 = task_id
      · simp [dictGet, h]
      · simp [dictGet, h, ih]

/-- C3 counterexample: when the OS cannot start the process (for example the
script is absent from /usr/local/bin), subprocess.run raises an OSError that
the except clause of run_script (which names only CalledProcessError) does
not catch, so an exception does cross the boundary instead of a structured
result. -/
theorem run_script_raises_counterexample :
    run_script (RunOutcome.osError "No such file or directory") =
      Except.error "No such file or directory" := rfl

/-- C3 amended: whenever the external process starts and runs to completion,
run_script returns a structured result and never raises: the success flag is
exactly the zero-exit test, so a non-zero exit status is reported as
success=false with the captured stderr rather than as an exception; only an
OS-level failure to start the process escapes. -/
theorem run_script_total_on_completion (code : ℤ) (out err : String) :
    run_script (RunOutcome.completed code out err)
      = Except.ok ⟨decide (code = 0), out, err⟩ := by
  by_cases h : code = 0 <;> simp [run_script, h]

/-- C4 counterexample: a record whose age is exactly the expiry window is
not swept (the source comparison is strict), so a get at that instant still
returns it although the claim requires not-found at age greater than or
equal to the window. -/
theorem task_expiry_boundary_counterexample :
    (300 : ℚ) - (newTask "x" "Container creation" "web" 0).created_at ≥ 300 ∧
    ((get_task_status 300 [("x", newTask "x" "Container creation" "web" 0)]
        "x").2).isSome = true := by
  constructor
  · norm_num [newTask]
  · norm_num [get_task_status, cleanup_old_tasks, keepTask, newTask, dictGet,
      List.filter_cons, TASK_EXPIRY]

/-- C4 amended: for every task whose age is STRICTLY greater than the 300s
expiry window at the time of a get, the get returns not-found: the read
sweeps such records out first, regardless of their status. -/
theorem task_expiry_strict (now : ℚ) (store : TaskStore) (task_id : String)
    (h : ∀ p ∈ store, p.1 = task_id → now - p.2.created_at > TASK_EXPIRY) :
    (get_task_status now store task_id).2 = none := by
  have hg : ∀ s : TaskStore,
      (∀ p ∈ s, p.1 = task_id → now - p.2.created_at > TASK_EXPIRY) →
      dictGet (cleanup_old_tasks now s) task_id = none := by
    intro s
    induction s with
    | nil => intro _; rfl
    | cons p rest ih =>
        intro hall
        have hrest := ih fun q hq hq1 => hall q (List.mem_cons_of_mem p hq) hq1
        by_cases hk : now - p.2.created_at > TASK_EXPIRY
        · have hkeep : keepTask now p = false := by simp [keepTask, hk]
          simpa [cleanup_old_tasks, List.filter_cons, hkeep]
            using hrest
        · by_cases hid : p.1 = task_id
          · exact absurd (hall p (List.mem_cons_self p rest) hid) hk
          · have hkeep : keepTask now p = true := by simp [keepTask, hk]
            simpa [cleanup_old_tasks, List.filter_cons, hkeep, dictGet, hid]
              using hrest
  have hone := hg store h
  simp [get_task_status, hone]

theorem task_expiry_strict_witness :
    (get_task_status 301 [("x", newTask "x" "Container creation" "web" 0)]
      "x").2 = none := by
  apply task_expiry_strict
  intro p hp hid
  rw [List.mem_singleton] at hp
  subst hp
  norm_num [newTask, TASK_EXPIRY]

/-- What the tracked execution guarantees for the owning task record after a
completed external process: the run returns a store in which the record
carries the completion stamp, the terminal status chosen by the exit code,
the generated message on success, and on failure the trimmed stderr or the
fixed non-empty fallback when the trimmed stderr is empty. -/
def trackedTaskProp (store : TaskStore) (task_id : String) (code : ℤ)
    (out err : String) (finishTime : ℚ) (action target : String) : Prop :=
  ∃ store2 t2,
    run_tracked_task store task_id (RunOutcome.completed code out err)
        finishTime action target = Except.ok store2 ∧
    dictGet store2 task_id = some t2 ∧
    t2.completed_at = some finishTime ∧
    (code = 0 → t2.status = "success" ∧
      t2.message = some (action ++ " completed successfully for " ++ target)) ∧
    (code ≠ 0 → t2.status = "error" ∧
      (err.trim ≠ "" → t2.error = some err.trim) ∧
      (err.trim = "" → t2.error = some "Unknown error occurred" ∧
        ("Unknown error occurred" : String) ≠ ""))

/-- C6: for every tracked execution over a present record, the owning task
ends in status success with the generated message referencing the action and
target when the invoker reports success, and in status error otherwise, with
the error field equal to the trimmed stderr, or the fixed non-empty fallback
when the trimmed stderr is empty. -/
theorem tracked_task_terminal (store : TaskStore) (task_id : String)
    (code : ℤ) (out err : String) (finishTime : ℚ) (action target : String)
    (h : (dictGet store task_id).isSome = true) :
    trackedTaskProp store task_id code out err finishTime action target := by
  obtain ⟨t, ht⟩ := Option.isSome_iff_exists.1 h
  by_cases hc : code = 0
  · refine ⟨updateTask (updateTask store task_id markRunning) task_id
        (finishTask ⟨true, out, err⟩ finishTime action target),
      finishTask ⟨true, out, err⟩ finishTime action target (markRunning t),
      ?_, ?_, ?_, ?_, ?_⟩
    · simp [run_tracked_task, run_script, hc]
    · rw [dictGet_updateTask, dictGet_updateTask, ht]; rfl
    · simp [finishTask]
    · intro _
      exact ⟨by simp [finishTask], by simp [finishTask]⟩
    · intro hne; exact absurd hc hne
  · refine ⟨updateTask (updateTask store task_id markRunning) task_id
        (finishTask ⟨false, out, err⟩ finishTime action target),
      finishTask ⟨false, out, err⟩ finishTime action target (markRunning t),
      ?_, ?_, ?_, ?_, ?_⟩
    · simp [run_tracked_task, run_script, hc]
    · rw [dictGet_updateTask, dictGet_updateTask, ht]; rfl
    · simp [finishTask]
    · intro h0; exact absurd h0 hc
    · intro _
      refine ⟨by simp [finishTask], ?_, ?_⟩
      · intro hne; simp [finishTask, strDefault, hne]
      · intro he
        refine ⟨by simp [finishTask, strDefault, he], by decide⟩

theorem tracked_task_terminal_witness :
    trackedTaskProp [("i", newTask "i" "Stop container" "web" 0)] "i" 1 ""
      "disk full" 7 "Stop container" "web" :=
  tracked_task_terminal [("i", newTask "i" "Stop container" "web" 0)] "i" 1
    "" "disk full" 7 "Stop container" "web" rfl

/-- The record-level invariant of the claim: completed_at is set exactly when
the status is terminal. -/
def taskInv (t : TaskResult) : Prop :=
  t.completed_at.isSome = true ↔ (t.status = "success" ∨ t.status = "error")

/-- Every record of the store satisfies the invariant. -/
def storeInv (store : TaskStore) : Prop :=
  ∀ p ∈ store, taskInv p.2

theorem taskInv_newTask (task_id action target : String) (now : ℚ) :
    taskInv (newTask task_id action target now) := by
  have hst : (newTask task_id action target now).status = "pending" := rfl
  have hca : (newTask task_id action target now).completed_at = none := rfl
  unfold taskInv
  rw [hst, hca]
  decide

theorem taskInv_finishTask (result : ScriptResult) (finishTime : ℚ)
    (action target : String) (t : TaskResult) :
    taskInv (finishTask result finishTime action target t) := by
  unfold taskInv finishTask
  cases hr : result.success
  · rw [if_neg (by simp [hr])]
    exact ⟨fun _ => Or.inr rfl, fun _ => rfl⟩
  · rw [if_pos (by simp [hr])]
    exact ⟨fun _ => Or.inl rfl, fun _ => rfl⟩

/-- C8: after any complete registry operation — creating a fresh pending
record, a complete tracked execution, or the expiry sweep — every record of
the store has completed_at set if and only if its status is terminal
(success or error); in particular it is absent while pending or running. -/
theorem completed_at_iff_terminal (store : TaskStore) (hs : storeInv store)
    (task_id action target : String) (now : ℚ) (outcome : RunOutcome)
    (finishTime : ℚ) (act tgt : String) (store2 : TaskStore) :
    storeInv (dictSet store task_id (newTask task_id action target now)) ∧
    storeInv (cleanup_old_tasks now store) ∧
    (run_tracked_task store task_id outcome finishTime act tgt
        = Except.ok store2 → storeInv store2) := by
  refine ⟨?_, ?_, ?_⟩
  · intro p hp
    by_cases hhas : dictHas store task_id
    · rw [dictSet, if_pos hhas] at hp
      obtain ⟨q, hq, hqe⟩ := List.mem_map.1 hp
      by_cases hqid : q.1 = task_id
      · rw [if_pos hqid] at hqe
        rw [← hqe]
        exact taskInv_newTask task_id action target now
      · rw [if_neg hqid] at hqe
        rw [← hqe]
        exact hs q hq
    · rw [dictSet, if_neg hhas] at hp
      rcases List.mem_append.1 hp with h1 | h2
      · exact hs p h1
      · rw [List.mem_singleton] at h2
        rw [h2]
        exact taskInv_newTask task_id action target now
  · intro p hp
    exact hs p (List.mem_filter.1 hp).1
  · intro heq
    cases outcome with
    | osError m => simp [run_tracked_task, run_script] at heq
    | completed code out err =>
        have heq2 : updateTask (updateTask store task_id markRunning) task_id
            (finishTask (if code = 0 then ⟨true, out, err⟩ else ⟨false, out, err⟩)
              finishTime act tgt) = store2 := by
          by_cases hc : code = 0 <;>
            simpa [run_tracked_task, run_script, hc] using heq
        rw [← heq2]
        intro p hp
        obtain ⟨q1, hq1, hq1e⟩ := List.mem_map.1 hp
        obtain ⟨q0, hq0, hq0e⟩ := List.mem_map.1 hq1
        by_cases h0 : q0.1 = task_id
        · rw [if_pos h0] at hq0e
          have hq11 : q1.1 = task_id := by rw [← hq0e]; exact h0
          rw [if_pos hq11] at hq1e
          rw [← hq1e]
          exact taskInv_finishTask _ finishTime act tgt q1.2
        · rw [if_neg h0] at hq0e
          have hq11 : ¬ q1.1 = task_id := by rw [← hq0e]; exact h0
          rw [if_neg hq11] at hq1e
          rw [← hq1e, ← hq0e]
          exact hs q0 hq0

/-- A one-record store with a pending task. -/
def exStoreI : TaskStore := [("i", newTask "i" "Stop container" "web" 0)]

theorem completed_at_iff_terminal_witness :
    storeInv (dictSet exStoreI "i" (newTask "i" "Start container" "web" 10)) ∧
    storeInv (cleanup_old_tasks 10 exStoreI) ∧
    storeInv (updateTask (updateTask exStoreI "i" markRunning) "i"
      (finishTask ⟨false, "", ""⟩ 20 "Stop container" "web")) := by
  have hs0 : storeInv exStoreI := by
    intro p hp
    rw [exStoreI, List.mem_singleton] at hp
    rw [hp]
    exact taskInv_newTask "i" "Stop container" "web" 0
  have h := completed_at_iff_terminal exStoreI hs0 "i" "Start container"
    "web" 10 (RunOutcome.completed 1 "" "") 20 "Stop container" "web"
    (updateTask (updateTask exStoreI "i" markRunning) "i"
      (finishTask ⟨false, "", ""⟩ 20 "Stop container" "web"))
  exact ⟨h.1, h.2.1, h.2.2 rfl⟩

/-! Image catalog cache (IMAGES_CACHE, LAST_CACHE_UPDATE, CACHE_DURATION and
get_available_images, lines 39-41 and 437-504). -/

/-- One raw image of the external registry listing: its os and release
properties, absent when the JSON lacks them. -/
structure RawImage where
  os : Option String
  release : Option String
deriving DecidableEq

/-- WHITELIST_OS (line 50). -/
def WHITELIST_OS : List String := ["debian", "ubuntu", "kali"]

/-- One iteration of the catalog-processing loop (lines 474-491): skip an
image whose os or release is missing or empty (Python falsiness), lowercase
the os, keep only allow-listed families, and accumulate distinct releases
per family in first-seen order. -/
def addImage (processed : List (String × List String)) (img : RawImage) :
    List (String × List String) :=
  match img.os, img.release with
  | some osn, some rel =>
      if osn = "" ∨ rel = "" then processed
      else
        let osl := pyLower osn
        if osl ∈ WHITELIST_OS then
          let p1 := if dictHas processed osl then processed
                    else processed ++ [(osl, [])]
          let rels := (dictGet p1 osl).getD []
          if rel ∈ rels then p1 else dictSet p1 osl (rels ++ [rel])
        else processed
  | _, _ => processed

/-- Insertion into a descending-sorted list. -/
def insertDesc (x : String) : List String → List String
  | [] => [x]
  | y :: ys => if y < x then x :: y :: ys else y :: insertDesc x ys

/-- Descending lexicographic sort (line 495, sort with reverse=True). -/
def sortDesc (l : List String) : List String :=
  l.foldr insertDesc []

/-- The catalog processing of a successfully fetched raw listing
(lines 472-495). -/
def processImages (imgs : List RawImage) : List (String × List String) :=
  (imgs.foldl addImage []).map fun p => (p.1, sortDesc p.2)

/-- The process-wide catalog cache: IMAGES_CACHE and LAST_CACHE_UPDATE. -/
structure ImagesState where
  cache : List (String × List String)
  lastUpdate : ℚ
deriving DecidableEq

/-- The observable effect of one call to the images endpoint: the returned
catalog, the cache state afterwards, and whether the external source was
queried. -/
structure ImagesResult where
  output : List (String × List String)
  state : ImagesState
  queriedExternal : Bool
deriving DecidableEq

/-- CACHE_DURATION (line 41): one hour. -/
def CACHE_DURATION : ℚ := 3600

/-- get_available_images (lines 437-504).  The whole fetching and parsing of
the external registry sits in one try block; its outcome is the oracle
argument, where `none` models any exception during the refresh (then the
call returns an empty dict and the cache variables are never assigned) and
`some imgs` a successful fetch of the raw listing.  The cache is served only
when IMAGES_CACHE is truthy (non-empty) AND the age is below
CACHE_DURATION (line 445). -/
def get_available_images (now : ℚ) (fetch : Option (List RawImage))
    (st : ImagesState) : ImagesResult :=
  if st.cache ≠ [] ∧ now - st.lastUpdate < CACHE_DURATION then
    ⟨st.cache, st, false⟩
  else
    match fetch with
    | some imgs =>
        let p := processImages imgs
        ⟨p, ⟨p, now⟩, true⟩
    | none => ⟨[], st, true⟩

/-- C2 counterexample: after a successful refresh that produced an EMPTY
catalog (no allow-listed images) at t=3700, a second call at t=3800 — well
inside the cache duration — still queries the external source, because the
source also requires the cached dict to be truthy; so serving is not
equivalent to the freshness test alone and two calls within the window are
not free of a second external query. -/
theorem images_cache_iff_counterexample :
    (get_available_images 3700 (some []) ⟨[], 0⟩).state = ⟨[], 3700⟩ ∧
    ((3800 : ℚ) - 3700 < CACHE_DURATION) ∧
    (get_available_images 3800 (some []) ⟨[], 3700⟩).queriedExternal = true := by
  refine ⟨?_, by norm_num [CACHE_DURATION], ?_⟩
  · simp [get_available_images, processImages]
  · simp [get_available_images, processImages]

/-- C2 amended: the cached catalog is served without querying the external
source if and only if it is non-empty AND now - fetched_at < cache_duration
(1 hour); in that case the output is the cached catalog and the cache state
is unchanged, so a further call within the window behaves identically.
Otherwise the catalog is refreshed from the external source before
serving. -/
theorem images_cache_nonempty_fresh (now : ℚ) (fetch : Option (List RawImage))
    (st : ImagesState) :
    ((get_available_images now fetch st).queriedExternal = false ↔
      (st.cache ≠ [] ∧ now - st.lastUpdate < CACHE_DURATION)) ∧
    ((get_available_images now fetch st).queriedExternal = false →
      (get_available_images now fetch st).output = st.cache ∧
      (get_available_images now fetch st).state = st) := by
  by_cases h : st.cache ≠ [] ∧ now - st.lastUpdate < CACHE_DURATION
  · simp [get_available_images, h]
  · cases fetch <;> simp [get_available_images, h]

theorem images_cache_nonempty_fresh_witness :
    (get_available_images 10 none ⟨[("debian", ["12"])], 5⟩).output
      = [("debian", ["12"])] := by
  have h := (images_cache_nonempty_fresh 10 none ⟨[("debian", ["12"])], 5⟩).2
  exact (h (by norm_num [get_available_images, CACHE_DURATION])).1

/-- C7: a failed refresh (any exception while querying or processing the
external source, possible only when the fresh-and-non-empty cache test did
not already serve the cache) returns an empty catalog and leaves the cached
catalog and its timestamp unchanged for the next call. -/
theorem failed_refresh_preserves_cache (now : ℚ) (st : ImagesState)
    (h : ¬(st.cache ≠ [] ∧ now - st.lastUpdate < CACHE_DURATION)) :
    (get_available_images now none st).output = [] ∧
    (get_available_images now none st).state = st := by
  simp [get_available_images, h]

theorem failed_refresh_preserves_cache_witness :
    (get_available_images 5000 none ⟨[("debian", ["12"])], 0⟩).output = [] ∧
    (get_available_images 5000 none ⟨[("debian", ["12"])], 0⟩).state
      = ⟨[("debian", ["12"])], 0⟩ :=
  failed_refresh_preserves_cache 5000 ⟨[("debian", ["12"])], 0⟩
    (fun hc => absurd hc.2 (by norm_num [CACHE_DURATION]))

/-! Container creation endpoint (POST /containers, lines 341-367). -/

/-- The observable effect of the create endpoint: the response message, the
task store after the pending record is inserted, and the script invocation
scheduled in the background. -/
structure CreateContainerResult where
  message : String
  store : TaskStore
  scriptName : String
  scriptArgs : List String
deriving DecidableEq

/-- create_container (lines 341-367): normalize the distro for the script
(lowercase, spaces removed, line 345), insert the pending task record,
schedule create-ct with the positional argument vector of line 359, and
return the message of line 365 echoing the request. -/
def create_container (store : TaskStore) (task_id : String) (now : ℚ)
    (name user password distro version : String) : CreateContainerResult :=
  let distro_clean := removeSpaces (pyLower distro)
  { message := "Creation of " ++ name ++ " (" ++ distro ++ ") started."
    store := dictSet store task_id (newTask task_id "Container creation" name now)
    scriptName := "create-ct"
    scriptArgs := [name, user, password, distro_clean, version] }

/-- C10: the distro value passed to the external create script is the
request distro lowercased with all spaces removed, while the returned
message echoes the original unnormalized distro; name, user, password and
version are passed through unchanged in their positions. -/
theorem create_container_normalizes_distro (store : TaskStore)
    (task_id : String) (now : ℚ)
    (name user password distro version : String) :
    (create_container store task_id now name user password distro
        version).scriptArgs
      = [name, user, password, removeSpaces (pyLower distro), version] ∧
    (create_container store task_id now name user password distro
        version).scriptName = "create-ct" ∧
    (create_container store task_id now name user password distro
        version).message
      = "Creation of " ++ name ++ " (" ++ distro ++ ") started." :=
  ⟨rfl, rfl, rfl⟩

end EasyLxc
